import Mathlib

/-!
Shallow embedding of the Timeseries-Labeling-Tool (src/app.py).

The program is a single-file Streamlit app.  Its core pieces, embedded here:

* `prepareData` — `prepare_data` (app.py lines 23-51): column checks, timestamp
  conversion via `pd.to_datetime` (which raises on any unparseable entry, so the
  whole call fails), numeric coercion of the `hoehe` column with
  `errors="coerce"` followed by a warning and `dropna(subset=["hoehe"])`.
  Timestamps are modelled as minutes (an `Int`, an ordered instant type), cell
  parse results as `Option` values: `none` stands for an unparseable cell
  (for `hoehe`, the `NaN` that `pd.to_numeric` coerces a bad cell to).
* `minTimestamp` / `maxTimestamp` — `data["timestamp"].min()` / `.max()`
  (app.py lines 91, 100-101).
* `initialWindow` — session-state initialisation (app.py lines 90-93):
  `x_start = min`, `x_end = min + 2h`, with no capping at the maximum.
* `slider` — models the `st.slider` widget (app.py lines 104-110), which is
  external to the repository: the value the widget hands back always lies
  within `[min_value, max_value]`; an out-of-range candidate is confined to
  the nearest bound.
* `advanceWindow` — the slider round-trip plus session-state update
  (app.py lines 100-114): the window start is the slider result, the end is
  always `start + 2h`.
* `windowRecords` — the view filter of `create_interactive_plot`
  (app.py line 56): `data[(ts >= x_start) & (ts <= x_end)]`, inclusive bounds.
* `AppState` / `assignLabelHandler` — the "Assign Label" button handler
  (app.py lines 127-131): it filters `data` on `[x_start, x_end]` — the same
  inclusive filter as the view — and writes the chosen label to those rows.
  The brush interval selection created at line 59 is carried in the state but
  is never read by the handler.
* `applyLabel` — the indexed label write `data.loc[ids, "Label"] = label`
  (app.py line 131) with an explicit identifier set.
* `labelOptions` — the selectbox choices (app.py line 126).

A `Record` keeps its original row position (`idx`), its parsed timestamp and
value, and an optional label (`none` = never labelled, pandas `NaN`).
-/

namespace TSLabel

/-- One raw input row: each cell is `some` parsed content or `none` when the
cell does not parse (for `hoehe`, `pd.to_numeric(errors="coerce")` yields
`NaN`, modelled as `none`; for `timestamp`, `pd.to_datetime` raises). -/
structure RawRow where
  timestamp : Option Int
  hoehe : Option Int
deriving DecidableEq

/-- A raw uploaded table: presence of the two required columns plus the rows. -/
structure RawTable where
  hasTimestampCol : Bool
  hasHoeheCol : Bool
  rows : List RawRow
deriving DecidableEq

/-- One validated row.  `idx` is the original row position (the pandas index,
which `dropna` preserves), `label` is the optional `Label` column entry. -/
structure Record where
  idx : Nat
  timestamp : Int
  value : Int
  label : Option String
deriving DecidableEq

/-- Pair each raw row with its original position, starting at `i`
(the pandas `RangeIndex`). -/
def enumRows : List RawRow → Nat → List (Nat × RawRow)
  | [], _ => []
  | r :: rs, i => (i, r) :: enumRows rs (i + 1)

/-- A positioned raw row becomes a validated `Record` exactly when both cells
parsed; a row whose `hoehe` is `NaN` is dropped by
`dropna(subset=["hoehe"])` (app.py line 49). -/
def recOfRow (p : Nat × RawRow) : Option Record :=
  match p.2.timestamp, p.2.hoehe with
  | some ts, some v => some ⟨p.1, ts, v, none⟩
  | _, _ => none

/-- The fixed warning text of app.py line 48 (quotes around hoehe omitted);
note it carries no count of dropped rows. -/
def hoeheWarning : String :=
  "Some hoehe entries could not be converted to numbers and will be dropped."

/-- `prepare_data` (app.py lines 23-51).  Returns `none` on a missing column
or when `pd.to_datetime` raises — which it does as soon as one entry of the
timestamp column fails to parse.  Otherwise returns the retained records
(rows whose `hoehe` coerced to a number) together with the warning emitted
at line 48 (`some hoeheWarning` iff at least one `hoehe` entry was `NaN`). -/
def prepareData (t : RawTable) : Option (List Record × Option String) :=
  if t.hasTimestampCol = false then none
  else if t.hasHoeheCol = false then none
  else if t.rows.any (fun r => r.timestamp.isNone) then none
  else
    let recs := (enumRows t.rows 0).filterMap recOfRow
    let warning := if t.rows.any (fun r => r.hoehe.isNone) then some hoeheWarning
      else none
    some (recs, warning)

/-- `data["timestamp"].min()` (app.py lines 91, 100); 0 on the empty series
(where pandas would give `NaT`). -/
def minTimestamp (rows : List Record) : Int :=
  match rows with
  | [] => 0
  | r :: rs => (rs.map Record.timestamp).foldl min r.timestamp

/-- `data["timestamp"].max()` (app.py line 101); 0 on the empty series. -/
def maxTimestamp (rows : List Record) : Int :=
  match rows with
  | [] => 0
  | r :: rs => (rs.map Record.timestamp).foldl max r.timestamp

/-- `pd.Timedelta(hours=2)` in minutes (app.py lines 93, 107, 114). -/
def fixedDuration : Int := 120

/-- The session-state initialisation of app.py lines 90-93:
`x_start = min(timestamp)`, `x_end = min(timestamp) + 2h` — the end is not
capped at `max(timestamp)`. -/
def initialWindow (rows : List Record) : Int × Int :=
  (minTimestamp rows, minTimestamp rows + fixedDuration)

/-- Models the `st.slider` widget (app.py lines 104-110).  The widget is
external to this repository; the value it hands back always lies within
`[min_value, max_value]`, so an out-of-range candidate comes back confined
to the nearest bound. -/
def slider (minV maxV x : Int) : Int := max minV (min maxV x)

/-- The window-advance round trip of app.py lines 100-114: feed the candidate
start through the slider bounded by `[min, max - 2h]`, then set
`x_end = start + 2h` (line 114). -/
def advanceWindow (rows : List Record) (x : Int) : Int × Int :=
  let s := slider (minTimestamp rows) (maxTimestamp rows - fixedDuration) x
  (s, s + fixedDuration)

/-- The view filter of app.py line 56:
`data[(data["timestamp"] >= x_start) & (data["timestamp"] <= x_end)]`. -/
def windowRecords (rows : List Record) (s e : Int) : List Record :=
  rows.filter (fun r => decide (s ≤ r.timestamp ∧ r.timestamp ≤ e))

/-- The program state around the "Assign Label" button: the data frame, the
session-state window `[x_start, x_end]`, and the brush interval selection
created at app.py line 59 (the user-drawn rectangle), if any. -/
structure AppState where
  data : List Record
  x_start : Int
  x_end : Int
  brush : Option (Int × Int)
deriving DecidableEq

/-- The "Assign Label" handler (app.py lines 127-131): select
`data[(ts >= x_start) & (ts <= x_end)]` and write the chosen label to those
rows via `data.loc[selected_data.index, "Label"] = selected_label`.
The brush is not consulted. -/
def assignLabelHandler (a : AppState) (L : String) : AppState :=
  { a with
    data := a.data.map (fun r =>
      if a.x_start ≤ r.timestamp ∧ r.timestamp ≤ a.x_end then
        { r with label := some L }
      else r) }

/-- The indexed label write of app.py line 131,
`data.loc[ids, "Label"] = label`, with an explicit identifier set: every row
whose original position is in `ids` gets the label, every other row is left
alone. -/
def applyLabel (rows : List Record) (ids : List Nat) (L : String) : List Record :=
  rows.map (fun r => if r.idx ∈ ids then { r with label := some L } else r)

/-- The selectbox choices of app.py line 126. -/
def labelOptions : List String := ["Normal", "Warning", "Error"]

/-- Scenario-1 series of the spec: rows at 09:00, 09:30, 13:00 (minutes since
midnight) with values 1, 2, 3, freshly validated (no labels). -/
def scenarioRows : List Record :=
  [⟨0, 540, 1, none⟩, ⟨1, 570, 2, none⟩, ⟨2, 780, 3, none⟩]

/-- Scenario-1 state right after load: initial window `[09:00, 11:00]` and a
user-drawn brush covering `[09:00, 09:15]`. -/
def scenarioState : AppState :=
  ⟨scenarioRows, 540, 660, some (540, 555)⟩

/-- A two-record series spanning five hours, used to exercise the slider. -/
def wideRows : List Record := [⟨0, 0, 1, none⟩, ⟨1, 300, 2, none⟩]

/-- A two-record series spanning one hour, shorter than the fixed duration. -/
def shortRows : List Record := [⟨0, 0, 1, none⟩, ⟨1, 60, 2, none⟩]

/-- A table with one unparseable timestamp among otherwise valid rows. -/
def mixedTimestampTable : RawTable :=
  ⟨true, true, [⟨some 540, some 1⟩, ⟨none, some 2⟩]⟩

/-- A table whose rows arrive out of timestamp order. -/
def unsortedTable : RawTable :=
  ⟨true, true, [⟨some 780, some 3⟩, ⟨some 540, some 1⟩]⟩

/-- Scenario-2 table: raw value "abc" in the value column of the middle row,
modelled as the `NaN` that `pd.to_numeric(errors="coerce")` yields. -/
def oneBadValueTable : RawTable :=
  ⟨true, true, [⟨some 540, some 1⟩, ⟨some 570, none⟩, ⟨some 780, some 3⟩]⟩

/-- A table where two values fail numeric coercion. -/
def twoBadValuesTable : RawTable :=
  ⟨true, true, [⟨some 540, none⟩, ⟨some 570, none⟩]⟩

/-- Claim C4 (confirmed): for a series whose span exceeds the fixed window
duration, the advanced window start is always inside
`[min_timestamp, max_timestamp - fixed_duration]`, for every candidate
start, including out-of-range ones, which are clamped rather than accepted
or raised as errors. -/
theorem c4_advance_start_clamped (rows : List Record) (x : Int)
    (h : fixedDuration < maxTimestamp rows - minTimestamp rows) :
    minTimestamp rows ≤ (advanceWindow rows x).1 ∧
    (advanceWindow rows x).1 ≤ maxTimestamp rows - fixedDuration := by
  simp only [advanceWindow, slider]
  exact ⟨le_max_left _ _, max_le (by omega) (min_le_left _ _)⟩

/-- Claim C4 witness: the five-hour series clamps the out-of-range candidate
start -1000 back into bounds. -/
theorem c4_advance_start_clamped_witness :
    fixedDuration < maxTimestamp wideRows - minTimestamp wideRows ∧
    minTimestamp wideRows ≤ (advanceWindow wideRows (-1000)).1 ∧
    (advanceWindow wideRows (-1000)).1 ≤ maxTimestamp wideRows - fixedDuration :=
  ⟨by decide, c4_advance_start_clamped wideRows (-1000) (by decide)⟩

/-- Claim C5 counterexample: on a one-hour series the initial window is
`(min, min + 2h)`, whose end (120) is not
`min(start + fixed_duration, max_timestamp)` (60): the code never caps the
initial end at the series maximum. -/
theorem c5_initial_window_counterexample :
    initialWindow shortRows = (0, 120) ∧ maxTimestamp shortRows = 60 ∧
    (initialWindow shortRows).2 ≠
      min ((initialWindow shortRows).1 + fixedDuration) (maxTimestamp shortRows) := by
  decide

/-- Claim C5 (corrected): the initial window has `start = min_timestamp` and
`end = start + fixed_duration` unconditionally; when the series span is
shorter than the fixed duration, the end strictly exceeds `max_timestamp`
instead of being capped at it. -/
theorem c5_initial_window (rows : List Record) :
    (initialWindow rows).1 = minTimestamp rows ∧
    (initialWindow rows).2 = minTimestamp rows + fixedDuration ∧
    (rows ≠ [] → maxTimestamp rows - minTimestamp rows < fixedDuration →
      maxTimestamp rows < (initialWindow rows).2) := by
  refine ⟨rfl, rfl, fun _ h => ?_⟩
  simp only [initialWindow]
  omega

/-- Claim C5 witness: on the one-hour series the initial window end 120
exceeds the maximum timestamp 60. -/
theorem c5_initial_window_witness :
    shortRows ≠ [] ∧
    maxTimestamp shortRows - minTimestamp shortRows < fixedDuration ∧
    maxTimestamp shortRows < (initialWindow shortRows).2 :=
  ⟨by decide, by decide, (c5_initial_window shortRows).2.2 (by decide) (by decide)⟩

/-- Claim C6 (confirmed): the label write of app.py line 131 is idempotent —
applying the same label to the same identifier set twice equals applying it
once — and last-write-wins: applying a second label after a first gives
exactly the state of applying the second label alone, so a record keeps only
the newest label value. -/
theorem c6_apply_idempotent_last_write_wins (rows : List Record) (ids : List Nat)
    (L M : String) :
    applyLabel (applyLabel rows ids L) ids L = applyLabel rows ids L ∧
    applyLabel (applyLabel rows ids L) ids M = applyLabel rows ids M := by
  constructor <;>
  · simp only [applyLabel, List.map_map]
    congr 1
    funext r
    by_cases h : r.idx ∈ ids <;> simp [Function.comp, h]

/-- Claim C9 (confirmed): the label write touches only the label field — row
count, order, identifiers, timestamps and values are all preserved, a record
whose identifier is outside the set is returned exactly as it was, and an
empty identifier set leaves the series unchanged. -/
theorem c9_apply_frame (rows : List Record) (ids : List Nat) (L : String) :
    (applyLabel rows ids L).length = rows.length ∧
    (applyLabel rows ids L).map Record.idx = rows.map Record.idx ∧
    (applyLabel rows ids L).map Record.timestamp = rows.map Record.timestamp ∧
    (applyLabel rows ids L).map Record.value = rows.map Record.value ∧
    List.Forall₂ (fun r s : Record => r.idx ∉ ids → s = r) rows
      (applyLabel rows ids L) ∧
    applyLabel rows [] L = rows := by
  refine ⟨by simp [applyLabel], ?_, ?_, ?_, ?_, by simp [applyLabel]⟩
  · simp only [applyLabel, List.map_map]
    congr 1
    funext r
    by_cases h : r.idx ∈ ids <;> simp [Function.comp, h]
  · simp only [applyLabel, List.map_map]
    congr 1
    funext r
    by_cases h : r.idx ∈ ids <;> simp [Function.comp, h]
  · simp only [applyLabel, List.map_map]
    congr 1
    funext r
    by_cases h : r.idx ∈ ids <;> simp [Function.comp, h]
  · induction rows with
    | nil => simp [applyLabel]
    | cons r rs ih =>
      simp only [applyLabel, List.map_cons] at ih ⊢
      refine List.Forall₂.cons ?_ ih
      intro h
      simp [h]

/-- Claim C10 (confirmed): the records that receive an assigned label are
exactly those selected by the view filter for the current window — the same
inclusive `[x_start, x_end]` filter that builds the chart — and the brush
interval selection carried in the state has no effect whatsoever on the
result of the assign handler. -/
theorem c10_label_targets_window_not_brush (rows : List Record) (xs xe : Int)
    (b1 b2 : Option (Int × Int)) (L : String) :
    (assignLabelHandler ⟨rows, xs, xe, b1⟩ L).data =
      (assignLabelHandler ⟨rows, xs, xe, b2⟩ L).data ∧
    (assignLabelHandler ⟨rows, xs, xe, b1⟩ L).data =
      rows.map (fun r =>
        if r ∈ windowRecords rows xs xe then { r with label := some L } else r) := by
  refine ⟨rfl, ?_⟩
  simp only [assignLabelHandler, windowRecords]
  apply List.map_congr_left
  intro r hr
  by_cases h : xs ≤ r.timestamp ∧ r.timestamp ≤ xe <;>
    simp [List.mem_filter, hr, h]

theorem recOfRow_some {i : Nat} {r : RawRow} {rec : Record}
    (h : recOfRow (i, r) = some rec) :
    rec.idx = i ∧ rec.label = none ∧ r.timestamp = some rec.timestamp ∧
      r.hoehe = some rec.value := by
  simp only [recOfRow] at h
  rcases hts : r.timestamp with _ | ts <;> rcases hv : r.hoehe with _ | v <;>
    simp [hts, hv] at h
  subst h
  exact ⟨rfl, rfl, rfl, rfl⟩

theorem mem_filterMap_enumRows :
    ∀ {l : List RawRow} {i : Nat} {rec : Record},
    rec ∈ (enumRows l i).filterMap recOfRow →
    i ≤ rec.idx ∧
      l.get? (rec.idx - i) = some ⟨some rec.timestamp, some rec.value⟩ := by
  intro l
  induction l with
  | nil => intro i rec h; simp [enumRows] at h
  | cons r rs ih =>
    intro i rec h
    simp only [enumRows, List.filterMap_cons] at h
    rcases hr : recOfRow (i, r) with _ | rec'
    · rw [hr] at h
      obtain ⟨h1, h2⟩ := ih h
      refine ⟨by omega, ?_⟩
      rw [show rec.idx - i = (rec.idx - (i + 1)) + 1 by omega]
      simpa using h2
    · rw [hr] at h
      rcases List.mem_cons.mp h with h | h

      · subst h
        obtain ⟨h1, _, h3, h4⟩ := recOfRow_some hr
        refine ⟨h1.ge, ?_⟩
        rw [h1, Nat.sub_self]
        cases r
        simp_all
      · obtain ⟨h1, h2⟩ := ih h
        refine ⟨by omega, ?_⟩
        rw [show rec.idx - i = (rec.idx - (i + 1)) + 1 by omega]
        simpa using h2

theorem pairwise_idx_filterMap_enumRows (l : List RawRow) (i : Nat) :
    List.Pairwise (fun a b : Record => a.idx < b.idx)
      ((enumRows l i).filterMap recOfRow) := by
  induction l generalizing i with
  | nil => simp [enumRows]
  | cons r rs ih =>
    simp only [enumRows, List.filterMap_cons]
    rcases hr : recOfRow (i, r) with _ | rec
    · exact ih (i + 1)
    · refine List.Pairwise.cons ?_ (ih (i + 1))
      intro b hb
      have h1 : rec.idx = i := (recOfRow_some hr).1
      have h2 := (mem_filterMap_enumRows hb).1
      omega

theorem length_filterMap_enumRows (l : List RawRow) (i : Nat)
    (hts : ∀ r ∈ l, r.timestamp.isSome) :
    ((enumRows l i).filterMap recOfRow).length =
      (l.filter (fun r => r.hoehe.isSome)).length := by
  induction l generalizing i with
  | nil => simp [enumRows]
  | cons r rs ih =>
    have hr := hts r (by simp)
    have ihs := ih (i + 1) (fun x hx => hts x (by simp [hx]))
    rcases hts' : r.timestamp with _ | ts
    · rw [hts'] at hr; simp at hr
    · rcases hv : r.hoehe with _ | v <;>
        simp [enumRows, List.filterMap_cons, List.filter_cons, recOfRow,
          hts', hv, ihs]

/-- Claim C2 counterexample: one unparseable timestamp among otherwise valid
rows makes `prepare_data` fail outright (it returns no series), rather than
dropping only that row and succeeding; the same table without the bad row
validates fine. -/
theorem c2_unparseable_timestamp_counterexample :
    prepareData mixedTimestampTable = none ∧
    prepareData ⟨true, true, [⟨some 540, some 1⟩]⟩ =
      some ([⟨0, 540, 1, none⟩], none) := by
  decide

/-- Claim C2 (corrected): validation succeeds exactly when both required
columns are present and every row timestamp parses — a single unparseable
timestamp aborts the whole validation with an error, instead of invalidating
only that row. -/
theorem all_timestamps_parse_of_not_any {l : List RawRow}
    (h : ¬ (l.any fun r => r.timestamp.isNone) = true) :
    ∀ r ∈ l, r.timestamp.isSome := by
  intro r hr
  rw [List.any_eq_true] at h
  push_neg at h
  have := h r hr
  cases hrt : r.timestamp <;> simp_all

theorem c2_validation_succeeds_iff_all_timestamps_parse (t : RawTable) :
    (prepareData t).isSome ↔
      (t.hasTimestampCol = true ∧ t.hasHoeheCol = true ∧
        ∀ r ∈ t.rows, r.timestamp.isSome) := by
  by_cases h1 : t.hasTimestampCol = false
  · simp [prepareData, h1]
  · by_cases h2 : t.hasHoeheCol = false
    · simp [prepareData, h1, h2]
    · by_cases h3 : (t.rows.any fun r => r.timestamp.isNone) = true
      · rw [List.any_eq_true] at h3
        obtain ⟨r, hr, hnone⟩ := h3
        simp only [prepareData, if_neg h1, if_neg h2]
        rw [if_pos (List.any_eq_true.mpr ⟨r, hr, hnone⟩)]
        simp only [Option.isSome_none, Bool.false_eq_true, false_iff]
        rintro ⟨-, -, hall⟩
        have := hall r hr
        simp_all
      · have hres : (prepareData t).isSome := by
          unfold prepareData
          rw [if_neg h1, if_neg h2, if_neg h3]
          simp
        simp only [hres, true_iff]
        exact ⟨by simpa using h1, by simpa using h2,
          all_timestamps_parse_of_not_any h3⟩

/-- Claim C2 witness: a fully parseable two-row table validates. -/
theorem c2_validation_witness :
    (prepareData ⟨true, true, [⟨some 540, some 1⟩, ⟨some 570, some 2⟩]⟩).isSome :=
  (c2_validation_succeeds_iff_all_timestamps_parse
    ⟨true, true, [⟨some 540, some 1⟩, ⟨some 570, some 2⟩]⟩).mpr (by decide)

/-- Claim C3 counterexample: a table whose rows arrive out of timestamp order
validates successfully, and the resulting series is returned in the original
row order, not sorted by timestamp: the first record timestamp 780 exceeds
the second record timestamp 540. -/
theorem c3_unsorted_counterexample :
    prepareData unsortedTable =
      some ([⟨0, 780, 3, none⟩, ⟨1, 540, 1, none⟩], none) ∧
    ¬ List.Pairwise (fun a b : Record => a.timestamp ≤ b.timestamp)
        [(⟨0, 780, 3, none⟩ : Record), ⟨1, 540, 1, none⟩] := by
  refine ⟨by decide, fun h => ?_⟩
  have := (List.pairwise_cons.mp h).1 ⟨1, 540, 1, none⟩ (by simp)
  simp at this

/-- Claim C3 (corrected): validation never reorders rows — the retained
records appear in strictly increasing original row position, so the series is
in timestamp order only when the input already was. -/
theorem c3_validation_preserves_input_order (t : RawTable) (rows : List Record)
    (w : Option String) (h : prepareData t = some (rows, w)) :
    List.Pairwise (fun a b : Record => a.idx < b.idx) rows := by
  unfold prepareData at h
  split_ifs at h <;> cases h <;>
    exact pairwise_idx_filterMap_enumRows t.rows 0

/-- Claim C3 witness: the out-of-order table validates to records in original
row order. -/
theorem c3_validation_order_witness :
    List.Pairwise (fun a b : Record => a.idx < b.idx)
      [(⟨0, 780, 3, none⟩ : Record), ⟨1, 540, 1, none⟩] :=
  c3_validation_preserves_input_order unsortedTable
    [⟨0, 780, 3, none⟩, ⟨1, 540, 1, none⟩] none (by decide)

/-- Claim C8 counterexample: the scenario-2 table validates with the bad row
dropped (1 of 3 rows lost) and a warning — but the warning is the same fixed
message the two-dropped-rows table gets, so the caller is never told the
number of dropped rows, only that some were dropped. -/
theorem c8_dropped_count_counterexample :
    prepareData oneBadValueTable =
      some ([⟨0, 540, 1, none⟩, ⟨2, 780, 3, none⟩], some hoeheWarning) ∧
    prepareData twoBadValuesTable = some ([], some hoeheWarning) ∧
    oneBadValueTable.rows.length - 2 = 1 ∧
    twoBadValuesTable.rows.length - 0 = 2 ∧
    (prepareData oneBadValueTable).map Prod.snd =
      (prepareData twoBadValuesTable).map Prod.snd :=
  ⟨rfl, rfl, rfl, rfl, rfl⟩

/-- Claim C8 (corrected): a row whose value fails numeric coercion is dropped
(never substituted with a default), every coercible row is retained with its
original data and row position, and a warning is emitted exactly when at
least one row is dropped — but the warning is a fixed message that carries no
count of the dropped rows. -/
theorem c8_bad_value_dropped_with_warning (t : RawTable) (rows : List Record)
    (w : Option String) (h : prepareData t = some (rows, w)) :
    rows.length = (t.rows.filter (fun r => r.hoehe.isSome)).length ∧
    (w = some hoeheWarning ↔ ∃ r ∈ t.rows, r.hoehe.isNone = true) ∧
    ∀ rec ∈ rows, t.rows.get? rec.idx = some ⟨some rec.timestamp, some rec.value⟩ := by
  unfold prepareData at h
  split_ifs at h with h1 h2 h3 h4 <;> cases h
  · refine ⟨length_filterMap_enumRows t.rows 0 (all_timestamps_parse_of_not_any h3),
      ?_, fun rec hrec => by simpa using (mem_filterMap_enumRows hrec).2⟩
    constructor
    · intro _
      exact List.any_eq_true.mp h4
    · intro _
      rfl
  · refine ⟨length_filterMap_enumRows t.rows 0 (all_timestamps_parse_of_not_any h3),
      ?_, fun rec hrec => by simpa using (mem_filterMap_enumRows hrec).2⟩
    constructor
    · intro hc
      cases hc
    · intro hex
      exact absurd (List.any_eq_true.mpr hex) h4

/-- Claim C8 witness: the retained last record of the scenario-2 table still
points at its original raw row. -/
theorem c8_bad_value_dropped_witness :
    oneBadValueTable.rows.get? 2 = some ⟨some 780, some 3⟩ :=
  (c8_bad_value_dropped_with_warning oneBadValueTable
    [⟨0, 540, 1, none⟩, ⟨2, 780, 3, none⟩] (some hoeheWarning) rfl).2.2
    ⟨2, 780, 3, none⟩ (by decide)

/-- Claim C1 counterexample: on the scenario-1 series with the drawn selection
covering only 09:00-09:15, the claim would have only the 09:00 record
labelled; the assign handler instead labels the 09:30 record too (its
timestamp 570 is outside the requested range but inside the window), so a
record outside `[lo, hi]` does not keep its prior label. -/
theorem c1_label_range_counterexample :
    scenarioState.brush = some (540, 555) ∧
    (scenarioRows.get? 1).map Record.label = some none ∧
    ¬ ((540 : Int) ≤ 570 ∧ (570 : Int) ≤ 555) ∧
    (assignLabelHandler scenarioState "Warning").data.get? 1 =
      some ⟨1, 570, 2, some "Warning"⟩ := by
  decide

/-- Claim C1 (corrected): the requested selection range is ignored — the label
is assigned to exactly those records whose timestamp lies in the current
window `[x_start, x_end]` (inclusive on both ends); every other record keeps
its prior label, and a window matching no records changes nothing and is not
an error.  On the scenario-1 series with the initial 2-hour window this
labels exactly the first two rows, leaving the third unlabeled. -/
theorem c1_label_assigned_to_window (a : AppState) (L : String) :
    (assignLabelHandler a L).data.length = a.data.length ∧
    (∀ i : Nat, ∀ r : Record, a.data.get? i = some r →
      (assignLabelHandler a L).data.get? i =
        some (if a.x_start ≤ r.timestamp ∧ r.timestamp ≤ a.x_end then
          { r with label := some L } else r)) ∧
    (windowRecords a.data a.x_start a.x_end = [] →
      (assignLabelHandler a L).data = a.data) := by
  refine ⟨by simp [assignLabelHandler], ?_, ?_⟩
  · intro i r hr
    simp only [assignLabelHandler]
    rw [List.get?_map, hr]
    rfl
  · intro h
    simp only [windowRecords, List.filter_eq_nil_iff] at h
    simp only [assignLabelHandler]
    have hid : ∀ r ∈ a.data,
        (if a.x_start ≤ r.timestamp ∧ r.timestamp ≤ a.x_end then
          { r with label := some L } else r) = r := by
      intro r hr
      have hc := h r hr
      simp only [decide_eq_true_eq] at hc
      simp [hc]
    rw [List.map_congr_left hid]
    simp

/-- Claim C1 witness: on the scenario-1 state, assigning Warning labels the
09:30 record (inside the window) and leaves the 13:00 record unlabeled
(outside the window). -/
theorem c1_label_assigned_to_window_witness :
    (assignLabelHandler scenarioState "Warning").data.get? 1 =
      some ⟨1, 570, 2, some "Warning"⟩ ∧
    (assignLabelHandler scenarioState "Warning").data.get? 2 =
      some ⟨2, 780, 3, none⟩ := by
  constructor
  · rw [(c1_label_assigned_to_window scenarioState "Warning").2.1 1
      ⟨1, 570, 2, none⟩ (by decide)]
    decide
  · rw [(c1_label_assigned_to_window scenarioState "Warning").2.1 2
      ⟨2, 780, 3, none⟩ (by decide)]
    decide

/-- Claim C7 counterexample: applying the out-of-set label value Bogus to the
scenario-1 series does not return an error and does not leave the series
unchanged — the targeted records simply receive the unknown label. -/
theorem c7_unknown_label_counterexample :
    "Bogus" ∉ labelOptions ∧
    applyLabel scenarioRows [0, 1] "Bogus" =
      [⟨0, 540, 1, some "Bogus"⟩, ⟨1, 570, 2, some "Bogus"⟩, ⟨2, 780, 3, none⟩] ∧
    applyLabel scenarioRows [0, 1] "Bogus" ≠ scenarioRows := by
  refine ⟨by decide, rfl, by decide⟩

/-- Claim C7 (corrected): the label write performs no validation against the
enumerated label set — a value outside the selectbox options is written to
every targeted record all the same, so whenever some targeted record does not
already carry that value the series is changed, and no error is ever
returned; only the selectbox of app.py line 126 keeps unknown values out. -/
theorem c7_unknown_label_written_unchecked (rows : List Record) (ids : List Nat)
    (L : String) (_hL : L ∉ labelOptions) :
    List.Forall₂ (fun r s : Record => r.idx ∈ ids → s.label = some L) rows
      (applyLabel rows ids L) ∧
    ((∃ r ∈ rows, r.idx ∈ ids ∧ r.label ≠ some L) →
      applyLabel rows ids L ≠ rows) := by
  have hfa : List.Forall₂ (fun r s : Record => r.idx ∈ ids → s.label = some L)
      rows (applyLabel rows ids L) := by
    induction rows with
    | nil => simp [applyLabel]
    | cons r rs ih =>
      simp only [applyLabel, List.map_cons] at ih ⊢
      refine List.Forall₂.cons ?_ ih
      intro hmem
      simp [hmem]
  refine ⟨hfa, ?_⟩
  rintro ⟨r, hr, hid, hlab⟩ heq
  rw [heq] at hfa
  exact hlab (List.forall₂_same.mp hfa r hr hid)

/-- Claim C7 witness: the unknown label Wrong is written to a one-record
series, changing it, with no error. -/
theorem c7_unknown_label_witness :
    "Wrong" ∉ labelOptions ∧
    applyLabel [⟨5, 100, 7, none⟩] [5] "Wrong" ≠ [⟨5, 100, 7, none⟩] :=
  ⟨by decide, (c7_unknown_label_written_unchecked [⟨5, 100, 7, none⟩] [5] "Wrong"
    (by decide)).2 ⟨⟨5, 100, 7, none⟩, by decide, by decide, by decide⟩⟩

end TSLabel
